import Mathlib

/-!
Shallow embedding of the client-side search console (a Next.js frontend).

Sources embedded here:
* `src/unnamed/part_000` (`lib/api`): the `SearchResult` record and the
  request/response shapes of the external search service.
* `src/unnamed/part_001` (`components/ResultsTable`): client-side substring
  filtering (`filteredResults`), pagination (`totalPages`,
  `paginatedResults`), page navigation (`goToPage`), the copy-all text
  (`copyAllResults`), and the page-reset effect keyed on the filter text.
* `src/frontend/app/page.tsx` (`Home`): the page-level state (search fields,
  AND/OR mode, results, loading flag, error, stats, filter text) together
  with `handleSearch` and `handleReset`, and the conditional rendering that
  mounts the results table only when `!loading && results.length > 0`.

Strings are modelled as Lean `String`; JavaScript `toLowerCase` is modelled
character-wise with `Char.toLower` (the ASCII case map), and
`String.prototype.includes` as substring containment on the character lists.
JavaScript numbers that only pass through state (timing statistics, counts)
are modelled as `Nat`; the page number handed to `goToPage` is modelled as
`Int` since callers may produce values below 1.
-/

namespace SearchConsole

/-- A search-result row (`SearchResult` in `lib/api`): 7 string fields. -/
structure SearchResult where
  master_id : String
  mobile : String
  alt : String
  name : String
  fname : String
  address : String
  email : String
deriving DecidableEq

/-- Page size of the results table (`RESULTS_PER_PAGE = 100`). -/
def RESULTS_PER_PAGE : Nat := 100

/-- True when the first list is an initial segment of the second. -/
def leadsWith : List Char → List Char → Bool
  | [], _ => true
  | _ :: _, [] => false
  | a :: as, b :: bs => a == b && leadsWith as bs

/-- True when `needle` occurs contiguously somewhere inside the second list;
this is JavaScript `String.prototype.includes` on character lists. -/
def hasSub (needle : List Char) : List Char → Bool
  | [] => leadsWith needle []
  | c :: t => leadsWith needle (c :: t) || hasSub needle t

/-- JavaScript `hay.includes(needle)` on the modelled strings. -/
def includes (hay needle : String) : Bool :=
  hasSub needle.toList hay.toList

/-- JavaScript `s.toLowerCase()`, modelled with the ASCII case map. -/
def lowerStr (s : String) : String :=
  String.mk (s.toList.map Char.toLower)

/-- The per-record test inside `filteredResults` (`ResultsTable` lines 63-73):
`searchText` is the already-lowercased filter text, and a record passes when
it is a substring of at least one of the 7 lowercased fields, tried in the
order of the source. -/
def filteredRecordMatches (searchText : String) (r : SearchResult) : Bool :=
  includes (lowerStr r.master_id) searchText ||
  includes (lowerStr r.name) searchText ||
  includes (lowerStr r.fname) searchText ||
  includes (lowerStr r.mobile) searchText ||
  includes (lowerStr r.alt) searchText ||
  includes (lowerStr r.email) searchText ||
  includes (lowerStr r.address) searchText

/-- `filteredResults` (`ResultsTable` lines 60-74): a falsy (empty) filter
text returns `results` itself, otherwise keep the records matching the
lowercased filter text. -/
def filteredResults (results : List SearchResult) (filterText : String) :
    List SearchResult :=
  if filterText = "" then results
  else results.filter (filteredRecordMatches (lowerStr filterText))

/-- `totalPages = Math.ceil(filteredResults.length / RESULTS_PER_PAGE)`
(`ResultsTable` line 77); on naturals the ceiling is `(n + 99) / 100`. -/
def totalPages (filtered : List SearchResult) : Nat :=
  (filtered.length + RESULTS_PER_PAGE - 1) / RESULTS_PER_PAGE

/-- `paginatedResults = filteredResults.slice(startIndex, endIndex)` with
`startIndex = (currentPage - 1) * RESULTS_PER_PAGE` and
`endIndex = startIndex + RESULTS_PER_PAGE` (`ResultsTable` lines 78-82).
`currentPage` is 1-based and, in every reachable state of the component, at
least 1, so the slice is `drop` then `take`, both clamped like `slice`. -/
def paginatedResults (filtered : List SearchResult) (currentPage : Nat) :
    List SearchResult :=
  (filtered.drop ((currentPage - 1) * RESULTS_PER_PAGE)).take RESULTS_PER_PAGE

/-- `goToPage` (`ResultsTable` lines 89-97): the requested page is stored only
when it lies in `[1, totalPages]`; otherwise the current page is kept. The
scroll-to-top side effect is outside the state model. -/
def goToPage (tp : Nat) (currentPage page : Int) : Int :=
  if 1 ≤ page ∧ page ≤ (tp : Int) then page else currentPage

/-- One line of the copy-all text (`ResultsTable` lines 50-52): the 7 fields
joined by tab characters, in the order of the source template. -/
def copyRowText (r : SearchResult) : String :=
  r.master_id ++ "\t" ++ r.name ++ "\t" ++ r.fname ++ "\t" ++ r.mobile ++
    "\t" ++ r.alt ++ "\t" ++ r.email ++ "\t" ++ r.address

/-- The text written by `copyAllResults` (`ResultsTable` lines 46-58). The
closure captures only `results` — the full result set — even though the
component also holds `filterText` and `currentPage`; those are passed here as
(unused) arguments to record that fact. -/
def copyAllText (results : List SearchResult) (_filterText : String)
    (_currentPage : Int) : String :=
  String.intercalate "\n" (results.map copyRowText)

/-- The local state of the mounted `ResultsTable` component: the
`currentPage` from `useState(1)` and the `filterText` seen at the previous
render, which is the dependency cache of the reset-to-page-1 `useMemo`
(`ResultsTable` lines 84-87). -/
structure TableState where
  currentPage : Int
  lastFilterText : String
deriving DecidableEq

/-- Mounting `ResultsTable`: `useState(1)` initialises the page to 1. -/
def mountTable (filterText : String) : TableState :=
  { currentPage := 1, lastFilterText := filterText }

/-- Re-rendering a mounted `ResultsTable` with the current `filterText` prop:
the `useMemo` keyed on `[filterText]` (lines 84-87) runs `setCurrentPage(1)`
exactly when the prop differs from the one cached at the previous render. -/
def renderTable (t : TableState) (filterText : String) : TableState :=
  if filterText = t.lastFilterText then t
  else { currentPage := 1, lastFilterText := filterText }

/-- The seven search fields of the `Home` page (`SearchFields` in
`page.tsx`). -/
structure SearchFields where
  master_id : String
  name : String
  fname : String
  alt : String
  email : String
  address : String
  mobile : String
deriving DecidableEq

/-- The AND/OR combinator (`searchMode` in `page.tsx`). -/
inductive SearchMode
  | AND
  | OR
deriving DecidableEq

/-- The search statistics block of the `Home` page (`searchStats`). -/
structure SearchStats where
  totalMatches : Nat
  resultsReturned : Nat
  totalTime : Nat
  queryParseTime : Nat
  searchExecutionTime : Nat
  documentRetrievalTime : Nat
deriving DecidableEq

/-- A response of the external search service (`SearchResponse` in
`lib/api`). -/
structure SearchResponse where
  results : List SearchResult
  total_matches : Nat
  results_returned : Nat
  query_parse_time_ms : Nat
  search_execution_time_ms : Nat
  document_retrieval_time_ms : Nat
  total_time_ms : Nat
deriving DecidableEq

/-- The outbound request body built by `handleSearch` (`page.tsx` lines
57-65): the AND/OR combinator plus each search field whose trimmed value is
non-empty, trimmed. -/
structure SearchRequest where
  filter : SearchMode
  master_id : Option String
  name : Option String
  fname : Option String
  alt : Option String
  email : Option String
  address : Option String
  mobile : Option String
deriving DecidableEq

/-- `if (value.trim()) payload[key] = value.trim()` for one field. -/
def trimmedField (v : String) : Option String :=
  if v.trim = "" then none else some v.trim

/-- The payload of `handleSearch` (`page.tsx` lines 57-65). -/
def buildPayload (fields : SearchFields) (mode : SearchMode) : SearchRequest :=
  { filter := mode
    master_id := trimmedField fields.master_id
    name := trimmedField fields.name
    fname := trimmedField fields.fname
    alt := trimmedField fields.alt
    email := trimmedField fields.email
    address := trimmedField fields.address
    mobile := trimmedField fields.mobile }

/-- The full state of the `Home` page (`page.tsx` lines 20-48) together with
the results table: `table` is `some` exactly while `ResultsTable` is mounted,
which the JSX makes conditional on `!loading && results.length > 0`
(`page.tsx` line 139). -/
structure HomeState where
  searchFields : SearchFields
  searchMode : SearchMode
  results : List SearchResult
  loading : Bool
  error : Option String
  searchStats : SearchStats
  filterText : String
  table : Option TableState
deriving DecidableEq

/-- The initial (and reset) value of the seven search fields. -/
def emptySearchFields : SearchFields :=
  { master_id := "", name := "", fname := "", alt := "", email := ""
    address := "", mobile := "" }

/-- The initial (and reset) value of the search statistics. -/
def zeroStats : SearchStats :=
  { totalMatches := 0, resultsReturned := 0, totalTime := 0
    queryParseTime := 0, searchExecutionTime := 0
    documentRetrievalTime := 0 }

/-- One React render of the `Home` page: `ResultsTable` is kept in the tree
only when `!loading && results.length > 0`. Unmounting drops its local state;
mounting initialises it (`useState(1)`); a render of an already mounted table
applies the filter-keyed reset effect. -/
def reconcile (s : HomeState) : HomeState :=
  if s.loading = false ∧ 0 < s.results.length then
    match s.table with
    | some t => { s with table := some (renderTable t s.filterText) }
    | none => { s with table := some (mountTable s.filterText) }
  else
    { s with table := none }

/-- The synchronous opening of `handleSearch` (`page.tsx` lines 50-65): if a
request is already in flight (`loading`), return without touching state and
without issuing a request; otherwise set `loading`, clear `error`, and emit
the payload of the outbound request. -/
def handleSearchStart (s : HomeState) : HomeState × Option SearchRequest :=
  if s.loading then (s, none)
  else (reconcile { s with loading := true, error := none },
        some (buildPayload s.searchFields s.searchMode))

/-- The statistics stored from a successful response (`page.tsx` lines
72-79). -/
def statsOfResponse (resp : SearchResponse) : SearchStats :=
  { totalMatches := resp.total_matches
    resultsReturned := resp.results_returned
    totalTime := resp.total_time_ms
    queryParseTime := resp.query_parse_time_ms
    searchExecutionTime := resp.search_execution_time_ms
    documentRetrievalTime := resp.document_retrieval_time_ms }

/-- The resolution of a successful `handleSearch` (`page.tsx` lines 67-79 and
the `finally` on line 86): store the results and statistics, clear `loading`,
and re-render. -/
def handleSearchSucceed (s : HomeState) (resp : SearchResponse) : HomeState :=
  reconcile { s with
    results := resp.results
    searchStats := statsOfResponse resp
    loading := false }

/-- The resolution of a failed `handleSearch` (`page.tsx` lines 80-87): store
the error message, clear `loading`, and re-render. -/
def handleSearchFail (s : HomeState) (msg : String) : HomeState :=
  reconcile { s with error := some msg, loading := false }

/-- `handleReset` (`page.tsx` lines 90-111): clear the search fields, the
results, the filter text, the error, and the statistics; `searchMode` and
`loading` are not touched. -/
def handleReset (s : HomeState) : HomeState :=
  reconcile { s with
    searchFields := emptySearchFields
    results := []
    filterText := ""
    error := none
    searchStats := zeroStats }

/-- Changing the shared filter text (`setFilterText`, wired to both filter
inputs), followed by the render it triggers. -/
def setFilterTextH (s : HomeState) (f : String) : HomeState :=
  reconcile { s with filterText := f }

/-- The page the results table shows, or will show at its next mount: the
`currentPage` of the mounted table, and 1 while the table is unmounted
(`useState(1)` re-initialises it on mount). -/
def pageOf (s : HomeState) : Int :=
  match s.table with
  | some t => t.currentPage
  | none => 1

/-- A concrete record used by witnesses: only the email field is non-empty
and it is the one from the spec scenario. -/
def demoEmailRecord : SearchResult :=
  { master_id := "", mobile := "", alt := "", name := "", fname := ""
    address := "", email := "a@b.com" }

/-- A concrete record used by witnesses. -/
def demoRecord1 : SearchResult :=
  { master_id := "m1", mobile := "123", alt := "456", name := "John"
    fname := "Joe", address := "Addr 1", email := "j@x.com" }

/-- A second concrete record used by witnesses. -/
def demoRecord2 : SearchResult :=
  { master_id := "m2", mobile := "789", alt := "", name := "Jane"
    fname := "Jim", address := "Addr 2", email := "jane@y.com" }

/-- A concrete response used by witnesses. -/
def demoResponse : SearchResponse :=
  { results := [demoRecord1, demoRecord2], total_matches := 2
    results_returned := 2, query_parse_time_ms := 1
    search_execution_time_ms := 2, document_retrieval_time_ms := 3
    total_time_ms := 6 }

/-- A concrete page state used by witnesses: the table is mounted and sits on
page 2 with filter text "old". -/
def demoHome : HomeState :=
  { searchFields := emptySearchFields, searchMode := SearchMode.AND
    results := [demoRecord1, demoRecord2], loading := false, error := none
    searchStats := zeroStats, filterText := "old"
    table := some { currentPage := 2, lastFilterText := "old" } }

end SearchConsole

namespace SearchConsole

/-! ### Helper lemmas -/

lemma hasSub_nil_left (l : List Char) : hasSub [] l = true := by
  cases l <;> simp [hasSub, leadsWith]

lemma includes_empty (hay : String) : includes hay "" = true :=
  hasSub_nil_left hay.toList

lemma filteredRecordMatches_empty (r : SearchResult) :
    filteredRecordMatches (lowerStr "") r = true := by
  have h : lowerStr "" = "" := rfl
  rw [h]
  simp [filteredRecordMatches, includes_empty]

lemma filter_matches_empty (R : List SearchResult) :
    R.filter (filteredRecordMatches (lowerStr "")) = R :=
  List.filter_eq_self.mpr (fun a _ => filteredRecordMatches_empty a)

lemma length_le_totalPages_mul (filtered : List SearchResult) :
    filtered.length ≤ totalPages filtered * RESULTS_PER_PAGE := by
  simp only [totalPages, RESULTS_PER_PAGE]
  omega

lemma flattenPagesAux (k : Nat) (l : List SearchResult) (m : Nat) :
    ((List.range m).map (fun i => (l.drop (i * k)).take k)).flatten =
      l.take (m * k) := by
  induction m with
  | zero => simp
  | succ m ih =>
    rw [List.range_succ, List.map_append, List.flatten_append, ih,
      Nat.succ_mul, List.take_add]
    simp

/-- Projections of the page state other than the mounted table are untouched
by a render. -/
lemma reconcile_proj (s : HomeState) :
    (reconcile s).searchFields = s.searchFields ∧
    (reconcile s).searchMode = s.searchMode ∧
    (reconcile s).results = s.results ∧
    (reconcile s).loading = s.loading ∧
    (reconcile s).error = s.error ∧
    (reconcile s).searchStats = s.searchStats ∧
    (reconcile s).filterText = s.filterText := by
  unfold reconcile
  split
  · split <;> simp
  · simp

end SearchConsole

namespace SearchConsole

/-! ### Claims -/

/-- C1 (counterexample): the claim states that total pages is
`ceil(n / 100)` with a minimum of 1, so that an empty filtered sequence
reports 1 page. The code computes `Math.ceil(0 / 100) = 0` with no minimum
applied, so on the empty filtered sequence total pages is 0, not 1. -/
theorem claimC1_counterexample :
    totalPages ([] : List SearchResult) = 0 ∧
    totalPages ([] : List SearchResult) ≠ 1 := by
  constructor <;> decide

/-- C1 (amended): for every filtered result sequence the total-pages value is
exactly `ceil(n / 100)` — characterised by
`n ≤ totalPages * 100 < n + 100` — with no minimum applied, so the empty
filtered sequence yields 0 total pages. -/
theorem claimC1_amended (filtered : List SearchResult) :
    filtered.length ≤ totalPages filtered * RESULTS_PER_PAGE ∧
    totalPages filtered * RESULTS_PER_PAGE <
      filtered.length + RESULTS_PER_PAGE ∧
    totalPages ([] : List SearchResult) = 0 := by
  refine ⟨length_le_totalPages_mul filtered, ?_, by decide⟩
  simp only [totalPages, RESULTS_PER_PAGE]
  omega

/-- C3: `filteredResults` is exactly the order-preserving `List.filter` of
the source result set by the case-insensitive 7-field substring test (this
single equation also covers the falsy-filter fast path, because the empty
needle is a substring of every field); filtering with the empty string is
the identity; and a record with email `"a@b.com"` passes the filter
`"A@B"`. -/
theorem claimC3_filterCharacterisation (R : List SearchResult) (f : String) :
    filteredResults R f = R.filter (filteredRecordMatches (lowerStr f)) ∧
    filteredResults R "" = R ∧
    filteredResults [demoEmailRecord] "A@B" = [demoEmailRecord] := by
  refine ⟨?_, by simp [filteredResults], by decide⟩
  by_cases hf : f = ""
  · subst hf
    simp [filteredResults, filter_matches_empty]
  · simp [filteredResults, hf]

/-- C8: filtering is idempotent — applying `filteredResults` with the same
filter text to an already filtered sequence returns it unchanged. -/
theorem claimC8_filterIdem (R : List SearchResult) (f : String) :
    filteredResults (filteredResults R f) f = filteredResults R f := by
  by_cases hf : f = ""
  · subst hf
    simp [filteredResults]
  · simp [filteredResults, hf, List.filter_filter]

/-- C4: for every filtered sequence and page number `p ≥ 1`,
`paginatedResults` is the slice `[(p-1)*100, p*100)` clamped to the
available length, and concatenating the pages `1, …, totalPages` in order
reproduces the filtered sequence exactly. -/
theorem claimC4_paginationCover (filtered : List SearchResult) (p : Nat)
    (hp : 1 ≤ p) :
    paginatedResults filtered p =
      ((filtered.take (p * RESULTS_PER_PAGE)).drop
        ((p - 1) * RESULTS_PER_PAGE)) ∧
    ((List.range (totalPages filtered)).map
        (fun i => paginatedResults filtered (i + 1))).flatten = filtered := by
  constructor
  · rw [List.drop_take]
    have h : p * RESULTS_PER_PAGE - (p - 1) * RESULTS_PER_PAGE =
        RESULTS_PER_PAGE := by
      simp only [RESULTS_PER_PAGE]
      omega
    rw [h]
    rfl
  · have hfun : (fun i => paginatedResults filtered (i + 1)) =
        (fun i => (filtered.drop (i * RESULTS_PER_PAGE)).take
          RESULTS_PER_PAGE) := by
      funext i
      simp [paginatedResults]
    rw [hfun, flattenPagesAux]
    exact List.take_of_length_le (length_le_totalPages_mul filtered)

/-- C4 witness: the pagination claims hold on a concrete two-record list at
page 1. -/
theorem claimC4_paginationCover_witness :
    1 ≤ 1 ∧
    (paginatedResults [demoRecord1, demoRecord2] 1 =
      ((([demoRecord1, demoRecord2] : List SearchResult).take
        (1 * RESULTS_PER_PAGE)).drop ((1 - 1) * RESULTS_PER_PAGE)) ∧
    ((List.range (totalPages [demoRecord1, demoRecord2])).map
        (fun i => paginatedResults [demoRecord1, demoRecord2] (i + 1))).flatten
      = [demoRecord1, demoRecord2]) :=
  ⟨by decide, claimC4_paginationCover [demoRecord1, demoRecord2] 1 (by decide)⟩

/-- C5: `goToPage` leaves the page state unchanged when the requested page is
outside `[1, totalPages]` (including requests ≤ 0 and above the last page),
and stores the requested page when it is inside that range. -/
theorem claimC5_navGuard (tp : Nat) (cur p : Int) :
    ((p ≤ 0 ∨ (tp : Int) < p) → goToPage tp cur p = cur) ∧
    (1 ≤ p → p ≤ (tp : Int) → goToPage tp cur p = p) := by
  constructor
  · intro h
    have hn : ¬(1 ≤ p ∧ p ≤ (tp : Int)) := by omega
    simp [goToPage, hn]
  · intro h1 h2
    simp [goToPage, h1, h2]

/-- C5 witness: with 3 total pages and current page 2, requesting page 0 is a
no-op and requesting page 3 stores 3. -/
theorem claimC5_navGuard_witness :
    ((0 : Int) ≤ 0 ∨ ((3 : Nat) : Int) < 0) ∧ goToPage 3 2 0 = 2 ∧
    (1 ≤ (3 : Int)) ∧ ((3 : Int) ≤ ((3 : Nat) : Int)) ∧ goToPage 3 2 3 = 3 :=
  ⟨Or.inl (by decide), (claimC5_navGuard 3 2 0).1 (Or.inl (by decide)),
    by decide, by decide, (claimC5_navGuard 3 2 3).2 (by decide) (by decide)⟩

/-- C9: the copy-all text is built from the full result set — independent of
the filter text and the current page — as the records of `R` in order,
joined by newlines, each line being the 7 fields joined by tabs; on a
concrete two-record set with a non-matching filter text and an out-of-range
page it still renders both records. -/
theorem claimC9_copyAll (R : List SearchResult) (f : String) (p : Int) :
    copyAllText R f p = String.intercalate "\n" (R.map copyRowText) ∧
    copyAllText R f p = copyAllText R "" 1 ∧
    copyAllText [demoRecord1, demoRecord2] "zzz" 5 =
      copyRowText demoRecord1 ++ "\n" ++ copyRowText demoRecord2 ∧
    copyRowText demoRecord1 = "m1\tJohn\tJoe\t123\t456\tj@x.com\tAddr 1" :=
  ⟨rfl, rfl, by decide, by decide⟩

end SearchConsole

namespace SearchConsole

/-- C2: the current page is reset to 1 whenever the filter string changes (the
render effect keyed on `filterText` runs `setCurrentPage(1)`), and whenever a
new result set is loaded (the table is unmounted while `loading` is set and
remounts with `useState(1)`), so after either event the shown page is 1. -/
theorem claimC2_pageReset (s : HomeState) (t : TableState) (f : String)
    (resp : SearchResponse) :
    (s.table = some t → t.lastFilterText ≠ f →
      pageOf (setFilterTextH s f) = 1) ∧
    (s.loading = false →
      pageOf (handleSearchSucceed (handleSearchStart s).1 resp) = 1) := by
  constructor
  · intro ht hne
    by_cases hc : s.loading = false ∧ 0 < s.results.length
    · simp [setFilterTextH, reconcile, hc.1, hc.2, ht, pageOf, renderTable,
        Ne.symm hne]
    · simp only [setFilterTextH, reconcile]
      rw [if_neg (by simpa using hc)]
      simp [pageOf]
  · intro hl
    have hstart : (handleSearchStart s).1 =
        reconcile { s with loading := true, error := none } := by
      simp [handleSearchStart, hl]
    rw [hstart]
    simp only [reconcile]
    rw [if_neg (by simp)]
    by_cases hr : 0 < resp.results.length
    · simp [handleSearchSucceed, reconcile, hr, pageOf, mountTable]
    · simp only [handleSearchSucceed, reconcile]
      rw [if_neg (fun h => hr h.2)]
      simp [pageOf]

/-- C2 witness: on a concrete state whose table sits on page 2, changing the
filter text to a different string shows page 1, and loading a new result set
shows page 1. -/
theorem claimC2_pageReset_witness :
    demoHome.table = some { currentPage := 2, lastFilterText := "old" } ∧
    ({ currentPage := 2, lastFilterText := "old" } :
      TableState).lastFilterText ≠ "new" ∧
    pageOf (setFilterTextH demoHome "new") = 1 ∧
    demoHome.loading = false ∧
    pageOf (handleSearchSucceed (handleSearchStart demoHome).1
      demoResponse) = 1 :=
  ⟨rfl, by decide,
    (claimC2_pageReset demoHome { currentPage := 2, lastFilterText := "old" }
      "new" demoResponse).1 rfl (by decide),
    rfl,
    (claimC2_pageReset demoHome { currentPage := 2, lastFilterText := "old" }
      "new" demoResponse).2 rfl⟩

/-- C6: when a search attempt fails, the handler stores the error message and
clears the loading flag, and the result set, the statistics, the search
fields, the filter text and the AND/OR mode are exactly as before the
attempt. -/
theorem claimC6_failureFrame (s : HomeState) (msg : String)
    (hl : s.loading = false) :
    (handleSearchFail (handleSearchStart s).1 msg).error = some msg ∧
    (handleSearchFail (handleSearchStart s).1 msg).loading = false ∧
    (handleSearchFail (handleSearchStart s).1 msg).results = s.results ∧
    (handleSearchFail (handleSearchStart s).1 msg).searchStats =
      s.searchStats ∧
    (handleSearchFail (handleSearchStart s).1 msg).searchFields =
      s.searchFields ∧
    (handleSearchFail (handleSearchStart s).1 msg).filterText =
      s.filterText ∧
    (handleSearchFail (handleSearchStart s).1 msg).searchMode =
      s.searchMode := by
  have hstart : (handleSearchStart s).1 =
      reconcile { s with loading := true, error := none } := by
    simp [handleSearchStart, hl]
  rw [hstart]
  obtain ⟨a1, a2, a3, _, _, a6, a7⟩ :=
    reconcile_proj { s with loading := true, error := none }
  obtain ⟨b1, b2, b3, b4, b5, b6, b7⟩ :=
    reconcile_proj { reconcile { s with loading := true, error := none } with
      error := some msg, loading := false }
  exact ⟨b5, b4, b3.trans a3, b6.trans a6, b1.trans a1, b7.trans a7,
    b2.trans a2⟩

/-- C6 witness: the failure frame condition holds on a concrete idle state. -/
theorem claimC6_failureFrame_witness :
    demoHome.loading = false ∧
    ((handleSearchFail (handleSearchStart demoHome).1 "boom").error =
      some "boom" ∧
    (handleSearchFail (handleSearchStart demoHome).1 "boom").loading =
      false ∧
    (handleSearchFail (handleSearchStart demoHome).1 "boom").results =
      demoHome.results ∧
    (handleSearchFail (handleSearchStart demoHome).1 "boom").searchStats =
      demoHome.searchStats ∧
    (handleSearchFail (handleSearchStart demoHome).1 "boom").searchFields =
      demoHome.searchFields ∧
    (handleSearchFail (handleSearchStart demoHome).1 "boom").filterText =
      demoHome.filterText ∧
    (handleSearchFail (handleSearchStart demoHome).1 "boom").searchMode =
      demoHome.searchMode) :=
  ⟨rfl, claimC6_failureFrame demoHome "boom" rfl⟩

/-- C7: while a request is in flight (`loading` is set), invoking the search
operation changes no state and issues no request. -/
theorem claimC7_loadingGuard (s : HomeState) (hl : s.loading = true) :
    handleSearchStart s = (s, none) := by
  simp [handleSearchStart, hl]

/-- C7 witness: on a concrete in-flight state, invoking search returns the
state unchanged with no outbound request. -/
theorem claimC7_loadingGuard_witness :
    ({ demoHome with loading := true } : HomeState).loading = true ∧
    handleSearchStart { demoHome with loading := true } =
      ({ demoHome with loading := true }, none) :=
  ⟨rfl, claimC7_loadingGuard { demoHome with loading := true } rfl⟩

/-- C10: the reset operation clears the seven search fields, the result set,
the filter text, the error message and the statistics to their initial
values, and leaves the AND/OR search mode unchanged. -/
theorem claimC10_resetFrame (s : HomeState) :
    (handleReset s).searchFields = emptySearchFields ∧
    (handleReset s).results = [] ∧
    (handleReset s).filterText = "" ∧
    (handleReset s).error = none ∧
    (handleReset s).searchStats = zeroStats ∧
    (handleReset s).searchMode = s.searchMode := by
  obtain ⟨a1, a2, a3, _, a5, a6, a7⟩ :=
    reconcile_proj { s with
      searchFields := emptySearchFields, results := [], filterText := "",
      error := none, searchStats := zeroStats }
  exact ⟨a1, a3, a7, a5, a6, a2⟩

end SearchConsole
